import Mathlib

/-!
Verification of the patient-intake prescription app.

Shallow embedding of the three source files:
* src/types.ts           — data model (PatientInfo, treatment labels, religion map, FilePart)
* src/services/geminiService.ts — prompt construction and response handling
* src/unnamed/part_000   — the App component: form state, validation, file handling,
  submission and reset logic

The React component state is embedded as the structure AppState; each event
handler of the component becomes a pure state-transition function.  The raw
textual reply of the external service is embedded as Option Json, where none
stands for text that is not well-formed JSON (so that JSON.parse throws) and
some j stands for text that JSON.parse turns into the value j.  The
prescription state variable holds the raw parsed value exactly as the source
stores it (setPrescription(result) without any field check), so its type is
Json with Json.null as the initial and cleared value; the view shows a Result
exactly when that value is truthy in the JavaScript sense.  Machine-level
concerns (the actual network call, the FileReader base64 encoder, rendering)
are external collaborators and appear only as abstract data.
-/

/-- Patient demographic fields, from src/types.ts (interface PatientInfo). -/
structure PatientInfo where
  name : String
  age : String
  district : String
  cell : String
  religion : String
  language : String
deriving DecidableEq, Repr

/-- The three general treatment modality labels, from src/types.ts (enum TreatmentType). -/
def TreatmentTypeValues : List String :=
  ["Hikmat (Traditional Herbal)", "Homeopathy", "Allopathy (Specialist Doctors)"]

/-- Static map from religion to the implied religious treatment label,
from src/types.ts (ReligiousTreatments).  Keys absent from the map give none,
as property lookup on the TS object gives undefined. -/
def ReligiousTreatments (religion : String) : Option String :=
  match religion with
  | "Islam" => some "Quran & Asma-ul-Husna"
  | "Christianity" => some "Biblical Healing & Prayer"
  | "Hinduism" => some "Ayurveda & Mantras"
  | "Buddhism" => some "Meditation & Chanting"
  | "Sikhism" => some "Gurbani Recitation & Seva"
  | "Judaism" => some "Torah Study & Prayer"
  | "Baháʼí Faith" => some "Writings of Baháʼu\x27lláh & Prayer"
  | "Chinese Folk Religion" => some "Ancestral Veneration & Herbal Remedies"
  | "Spiritism" => some "Spiritual Counsel & Healing"
  | "Ethnic/Indigenous Religions" => some "Traditional Rituals & Natural Healing"
  | _ => none

/-- A file part for the outbound request, from src/types.ts (type FilePart):
inlineData holds the declared media type and the base64 payload. -/
structure FilePart where
  mimeType : String
  data : String
deriving DecidableEq, Repr

/-- A browser File as the app uses it: its name, declared media type, byte size,
and the base64 payload its content encodes to.  The FileReader that produces the
base64 text is a platform collaborator; the payload is carried here as abstract
data so that fileToPart is a pure function. -/
structure UploadedFile where
  name : String
  type : String
  size : Nat
  base64Data : String
deriving DecidableEq, Repr

/-- fileToPart from src/unnamed/part_000: wraps the base64 content of a file with
its declared media type. -/
def fileToPart (f : UploadedFile) : FilePart :=
  { mimeType := f.type, data := f.base64Data }

/-- The two input tabs of the form, from src/unnamed/part_000 (activeTab state). -/
inductive Tab where
  | text
  | upload
deriving DecidableEq, Repr

/-- A JSON value, the result of a successful JSON.parse of the service reply.
Object field lists come from JSON.parse, so keys are unique. -/
inductive Json where
  | null : Json
  | bool (b : Bool) : Json
  | num (n : Int) : Json
  | str (s : String) : Json
  | arr (elems : List Json) : Json
  | obj (fields : List (String × Json)) : Json

/-- Untyped property access on a parsed JSON value: field lookup on objects,
undefined (none) on anything else, as in JavaScript. -/
def Json.get (j : Json) (key : String) : Option Json :=
  match j with
  | .obj fields => (fields.find? (fun p => p.1 == key)).map (fun p => p.2)
  | _ => none

/-- JavaScript truthiness of a JSON value: null, false, 0 and the empty string
are falsy; every array and object is truthy.  The view of src/unnamed/part_000
renders the Prescription component exactly when the stored prescription value
is truthy (the !prescription conditional on line 185). -/
def Json.truthy : Json → Bool
  | .null => false
  | .bool b => b
  | .num n => n != 0
  | .str s => s != ""
  | .arr _ => true
  | .obj _ => true

/-- The generic failure message thrown by generatePrescription in
src/services/geminiService.ts when the call or JSON.parse fails. -/
def genericFailureMsg : String :=
  "Failed to get a response from the AI. Please try again."

/-- The inline validation message set by handleSubmit in src/unnamed/part_000. -/
def validationErrorMsg : String :=
  "Please fill all required fields, describe your symptoms or upload a report, and select at least one treatment type."

/-- The aggregate warning set by handleFiles in src/unnamed/part_000 when some
selected files were dropped. -/
def invalidFilesMsg : String :=
  "Some files were invalid. Only JPG, PNG, and PDF files under 10MB are accepted."

/-- Response handling of src/services/geminiService.ts, lines 121-126: the reply
text is fed to JSON.parse and the parsed value is returned exactly as it is —
no field of it is inspected; any throw inside the try block is replaced by the
generic failure message.  none embeds reply text that is not well-formed JSON. -/
def parseServiceReply : Option Json → Except String Json
  | none => Except.error genericFailureMsg
  | some j => Except.ok j

/-- Outcome of the asynchronous part of a submission.  encodingFailure is the
FileReader onerror path: fileToPart rejects with the ProgressEvent handed to
onerror, a value with no message property, so it carries no description and
the service is never reached.  callFailure is a failed network call, and
callSuccess carries the reply text of a completed call (well-formed JSON or
not); both of those are failures the catch block of generatePrescription
replaces with the generic failure message. -/
inductive PipelineOutcome where
  | encodingFailure
  | callFailure
  | callSuccess (replyText : Option Json)

/-- The whole mutable state of the App component, from the useState hooks of
src/unnamed/part_000.  selectedTreatments embeds the TS Set in insertion order;
prescription holds the raw value stored by setPrescription, with Json.null for
the null of the initial state, of resets and of cleared results; error none
covers both the null and the undefined the source stores (both render no error
box); isDragging and the ref are pure presentation and are not modeled. -/
structure AppState where
  patientInfo : PatientInfo
  symptomDescription : String
  reportComments : String
  selectedTreatments : List String
  isLoading : Bool
  error : Option String
  prescription : Json
  activeTab : Tab
  uploadedFiles : List UploadedFile

/-- Initial PatientInfo of the useState hook (language starts as English). -/
def initialPatientInfo : PatientInfo :=
  { name := "", age := "", district := "", cell := "", religion := "", language := "English" }

/-- Model of the JavaScript String.prototype.trim platform builtin used by
handleSubmit: removal of whitespace from both ends. -/
def jsTrim (s : String) : String :=
  String.mk (((s.data.dropWhile Char.isWhitespace).reverse.dropWhile Char.isWhitespace).reverse)

/-- Allow-list of media types of handleFiles in src/unnamed/part_000. -/
def allowedMimeTypes : List String := ["image/jpeg", "image/png", "application/pdf"]

/-- The filter predicate of handleFiles: allowed media type and size strictly
below the 10MB limit. -/
def isValidFile (f : UploadedFile) : Bool :=
  allowedMimeTypes.contains f.type && decide (f.size < 10 * 1024 * 1024)

/-- handleFiles from src/unnamed/part_000: keep the valid files of the batch,
set the aggregate warning if any file was dropped, and append the kept files to
the accepted set.  none embeds a null FileList. -/
def handleFiles (s : AppState) (files : Option (List UploadedFile)) : AppState :=
  match files with
  | none => s
  | some newFiles =>
      let validFiles := newFiles.filter isValidFile
      let s1 := if validFiles.length ≠ newFiles.length then { s with error := some invalidFilesMsg } else s
      { s1 with uploadedFiles := s.uploadedFiles ++ validFiles }

/-- removeFile from src/unnamed/part_000: drop every accepted file whose name
equals the given name. -/
def removeFile (s : AppState) (fileName : String) : AppState :=
  { s with uploadedFiles := s.uploadedFiles.filter (fun f => f.name != fileName) }

/-- Deletion on the embedded TS Set: remove the element, keep the order. -/
def setDelete (sel : List String) (x : String) : List String :=
  sel.filter (fun y => y != x)

/-- Insertion on the embedded TS Set: append if not yet present. -/
def setAdd (sel : List String) (x : String) : List String :=
  if sel.contains x then sel else sel ++ [x]

/-- handleTreatmentToggle from src/unnamed/part_000. -/
def handleTreatmentToggle (s : AppState) (treatment : String) : AppState :=
  if s.selectedTreatments.contains treatment then
    { s with selectedTreatments := setDelete s.selectedTreatments treatment }
  else
    { s with selectedTreatments := setAdd s.selectedTreatments treatment }

/-- Dynamic field update of the spread {...prev, [name]: value}.  Only the six
field names of the form occur; an unknown name would add a property nothing
reads and is embedded as the identity. -/
def updateField (p : PatientInfo) (field value : String) : PatientInfo :=
  match field with
  | "name" => { p with name := value }
  | "age" => { p with age := value }
  | "district" => { p with district := value }
  | "cell" => { p with cell := value }
  | "religion" => { p with religion := value }
  | "language" => { p with language := value }
  | _ => p

/-- handleInputChange from src/unnamed/part_000: when the religion field
changes, the treatment implied by the previous religion is deselected first;
then the field is written. -/
def handleInputChange (s : AppState) (field value : String) : AppState :=
  let s1 :=
    if field == "religion" then
      match ReligiousTreatments s.patientInfo.religion with
      | some currentReligiousTreatment =>
          { s with selectedTreatments := setDelete s.selectedTreatments currentReligiousTreatment }
      | none => s
    else s
  { s1 with patientInfo := updateField s1.patientInfo field value }

/-- resetForm from src/unnamed/part_000. -/
def resetForm (s : AppState) : AppState :=
  { s with
      patientInfo := initialPatientInfo
      symptomDescription := ""
      reportComments := ""
      selectedTreatments := []
      prescription := Json.null
      error := none
      uploadedFiles := []
      activeTab := Tab.text }

/-- The missing-input test of handleSubmit: empty trimmed symptom text on the
text tab, or no accepted file on the upload tab. -/
def isInputMissing (s : AppState) : Prop :=
  (s.activeTab = Tab.text ∧ jsTrim s.symptomDescription = "") ∨
  (s.activeTab = Tab.upload ∧ s.uploadedFiles.length = 0)

instance instDecIsInputMissing (s : AppState) : Decidable (isInputMissing s) :=
  inferInstanceAs (Decidable (_ ∨ _))

/-- The guard of handleSubmit, lines 141-144 of src/unnamed/part_000: a falsy
(empty) required field, missing input, or empty treatment selection. -/
def validationCondition (s : AppState) : Prop :=
  s.patientInfo.name = "" ∨ s.patientInfo.age = "" ∨ s.patientInfo.district = "" ∨
  s.patientInfo.religion = "" ∨ s.patientInfo.language = "" ∨ isInputMissing s ∨
  s.selectedTreatments.length = 0

instance instDecValidationCondition (s : AppState) : Decidable (validationCondition s) :=
  inferInstanceAs (Decidable (_ ∨ _))

/-- The arguments handleSubmit passes to generatePrescription: the patient info,
the text of the active tab, the selected treatments, and the encoded parts of
every accepted file. -/
structure ApiRequest where
  patientInfo : PatientInfo
  illnessDescription : String
  selectedTreatments : List String
  files : List FilePart

/-- The request handleSubmit builds once validation passes. -/
def buildRequest (s : AppState) : ApiRequest :=
  { patientInfo := s.patientInfo
    illnessDescription := if s.activeTab = Tab.text then s.symptomDescription else s.reportComments
    selectedTreatments := s.selectedTreatments
    files := s.uploadedFiles.map fileToPart }

/-- handleSubmit from src/unnamed/part_000, lines 133-160.  Returns the next
component state together with the request issued to the external service, or
none when no call was made — because validation rejected the submission, or
because Promise.all of the encodings rejected before generatePrescription was
reached.  On an encoding failure the catch stores err.message of the rejection
value, the onerror ProgressEvent, which has no message property, so the error
state receives undefined (none here) and no description.  On a successful
parse the raw parsed value is stored as the prescription, whatever it is.
The PipelineOutcome argument stands for what the awaited encoding and call
deliver; on the validation-rejected path it is never consulted. -/
def handleSubmit (s : AppState) (o : PipelineOutcome) : AppState × Option ApiRequest :=
  if validationCondition s then
    ({ s with error := some validationErrorMsg }, none)
  else
    let s1 : AppState := { s with error := none, isLoading := true, prescription := Json.null }
    match o with
    | PipelineOutcome.encodingFailure =>
        ({ s1 with error := none, isLoading := false }, none)
    | PipelineOutcome.callFailure =>
        ({ s1 with error := some genericFailureMsg, isLoading := false }, some (buildRequest s))
    | PipelineOutcome.callSuccess reply =>
        match parseServiceReply reply with
        | Except.ok r => ({ s1 with prescription := r, isLoading := false }, some (buildRequest s))
        | Except.error m => ({ s1 with error := some m, isLoading := false }, some (buildRequest s))

/-- The bullet format demanded for the allopathy modality, part of the fixed
FORMATTING RULES block of the prompt in src/services/geminiService.ts. -/
def allopathyFormatInstr : String :=
  "Use the format: `Medicine Name, Dosage (e.g., 500mg, 1+1+1), Duration (e.g., 5 days)`. List each item on a new bullet point (*)."

/-- The Urdu-script override sentence closing the Islam religious fragment. -/
def urduScriptInstr : String :=
  "If the target language is Urdu, this MUST be in Urdu script."

/-- The Islam fragment up to the Urdu-script override sentence. -/
def islamFragmentBody : String :=
  "- For \"Quran & Asma-ul-Husna\", provide relevant Quranic verses or duas, and recommend \x27tasbeeh\x27 (recitation) of Asma-ul-Husna relevant to healing. Use bullet points. "

/-- religiousTreatmentPrompts from src/services/geminiService.ts: the fixed
instruction fragment of each religious treatment label.  Lookup of any other
label gives none (undefined), which the filter(Boolean) of the source drops. -/
def religiousTreatmentPrompts (treatment : String) : Option String :=
  match treatment with
  | "Quran & Asma-ul-Husna" => some (islamFragmentBody ++ urduScriptInstr)
  | "Biblical Healing & Prayer" =>
      some "- For \"Biblical Healing & Prayer\", provide relevant Bible verses and suggest prayers. Use bullet points."
  | "Ayurveda & Mantras" =>
      some "- For \"Ayurveda & Mantras\", provide relevant Ayurvedic remedies and suggest healing mantras. Use bullet points."
  | "Meditation & Chanting" =>
      some "- For \"Meditation & Chanting\", suggest meditation techniques and healing chants or sutras. Use bullet points."
  | "Gurbani Recitation & Seva" =>
      some "- For \"Gurbani Recitation & Seva\", recommend reciting Shabads from the Gurbani and suggest \x27Seva\x27 (selfless service). Use bullet points."
  | "Torah Study & Prayer" =>
      some "- For \"Torah Study & Prayer\", provide relevant passages from the Torah or Psalms and suggest prayers. Use bullet points."
  | "Writings of Baháʼu\x27lláh & Prayer" =>
      some "- For \"Writings of Baháʼu\x27lláh & Prayer\", provide excerpts from the Writings of Baháʼu\x27lláh and suggest prayers for health. Use bullet points."
  | "Ancestral Veneration & Herbal Remedies" =>
      some "- For \"Ancestral Veneration & Herbal Remedies\", suggest practices like ancestral offerings and common herbal remedies. Use bullet points."
  | "Spiritual Counsel & Healing" =>
      some "- For \"Spiritual Counsel & Healing\", provide spiritual counsel and suggest practices like positive affirmations. Use bullet points."
  | "Traditional Rituals & Natural Healing" =>
      some "- For \"Traditional Rituals & Natural Healing\", suggest connecting with nature and general traditional rituals. Use bullet points."
  | _ => none

/-- Opening of the prompt template: role statement, PRIMARY LANGUAGE RULE and
the fixed FORMATTING RULES block, up to the religious rules interpolation. -/
def promptHeader (language : String) : String :=
  "\n    You are an expert AI medical advisor. Your task is to provide concise, safe, and professional recommendations.\n\n    **PRIMARY LANGUAGE RULE:**\n    - You MUST generate the ENTIRE response in **"
  ++ language
  ++ "**. This includes all headings, titles, medical terms, treatment plans, analysis, and advice. Translate everything accurately and naturally.\n\n    **FORMATTING RULES:**\n    - For **Allopathy (Specialist Doctors)**, act as a board-certified specialist for the specific condition. Prescribe a comprehensive, high-quality, and modern treatment plan. Include primary medications, any necessary supportive therapies (e.g., vitamins, antacids), and suggest relevant diagnostic tests if needed. "
  ++ allopathyFormatInstr
  ++ " Ensure the prescription is evidence-based and professional.\n    - For **Homeopathy**, use this format: `Medicine Name Potency, Dosage (e.g., 5+5+5 drops), Duration (e.g., 7 days)`. New bullet point (*) per medicine. No paragraphs.\n    - For **Hikmat**, use simple bullet points with brief descriptions.\n    "

/-- Patient Information block of the prompt template, with the conditional
cell line. -/
def patientInfoSection (p : PatientInfo) : String :=
  "\n\n    **Patient Information:**\n    - Name: " ++ p.name
  ++ "\n    - Age: " ++ p.age
  ++ "\n    - District: " ++ p.district
  ++ "\n    - Religion: " ++ p.religion
  ++ "\n    - Preferred Language: " ++ p.language
  ++ "\n    " ++ (if p.cell ≠ "" then "- Cell: " ++ p.cell else "")
  ++ "\n\n    "

/-- Heading of the user text when attachments are present. -/
def userCommentsHeader : String := "**User Comments on Reports:**"

/-- Heading of the user text when no attachments are present. -/
def illnessDescriptionHeader : String := "**Illness Description:**"

/-- The hasFiles conditional around the user text in the prompt template. -/
def descriptionSection (files : List FilePart) (illnessDescription : String) : String :=
  if 0 < files.length then
    userCommentsHeader ++ "\n      \"" ++ illnessDescription ++ "\""
  else
    illnessDescriptionHeader ++ "\n      \"" ++ illnessDescription ++ "\""

/-- Opening of the Analyze Reports task item, up to the language interpolation. -/
def analyzeReportsInstrPrefix : String :=
  "2.  **Analyze Reports:** Create a level 2 heading \"Report Analysis Summary\" (translated to "

/-- Rest of the Analyze Reports task item after the language interpolation. -/
def onlyAbnormalInstr : String :=
  "). List **ONLY abnormal findings** in bullet points. Do not mention normal results."

/-- Response Structure rule of the attachments branch: the content field must
begin with the Report Analysis Summary section. -/
def mustStartInstr : String :=
  "- The \x27prescriptionContent\x27 value MUST start with the \x27Report Analysis Summary\x27 section."

/-- Response Structure rule of the no-attachments branch, up to the language
interpolation: one translated level 2 heading per treatment type. -/
def headingPerTypeInstrPrefix : String :=
  "- The \x27prescriptionContent\x27 value MUST contain a level 2 heading for each treatment type (e.g., \"Homeopathy Prescription\"), translated to "

/-- Task block of the prompt when attachments are present. -/
def taskWithFiles (language treatments : String) : String :=
  "\n      **Task:**\n      Based on the provided information and reports, perform these tasks in "
  ++ language
  ++ ":\n      1.  **Create Illness Title:** Create a short title for the issue (max 5 words).\n      "
  ++ analyzeReportsInstrPrefix
  ++ language
  ++ onlyAbnormalInstr
  ++ "\n      3.  **Provide Treatment Opinion:** Provide plans for the selected methodologies: **"
  ++ treatments
  ++ "**. Base these on report findings and user comments, following all rules.\n      4.  **Provide General Advice:** Create a final section with a level 2 heading \"General Advice\" (translated to "
  ++ language
  ++ "). Provide a bulleted list of health advice and precautions.\n\n      **Response Structure:**\n      "
  ++ mustStartInstr
  ++ "\n      - The \x27advice\x27 value MUST contain the \x27General Advice\x27 section.\n      "

/-- Task block of the prompt when no attachments are present. -/
def taskNoFiles (language treatments : String) : String :=
  "\n      **Task:**\n      Based on the provided information, perform these tasks in "
  ++ language
  ++ ":\n      1.  **Create Illness Title:** Create a short title for the illness (max 4 words).\n      2.  **Provide Treatment Plans:** Provide plans for the selected methodologies: **"
  ++ treatments
  ++ "**. Follow all rules.\n      3.  **Provide General Advice:** Create a final section with a level 2 heading \"General Advice\" (translated to "
  ++ language
  ++ "). Provide a bulleted list of health advice and precautions.\n\n      **Response Structure:**\n      "
  ++ headingPerTypeInstrPrefix
  ++ language
  ++ ".\n      - The \x27advice\x27 value MUST contain the \x27General Advice\x27 section.\n      "

/-- The instruction document built by generatePrescription in
src/services/geminiService.ts, lines 37-89: header and formatting rules, the
fragments of the selected religious treatments joined as in the source, the
patient block, the user text under the tab-dependent heading, and the
hasFiles-dependent task block. -/
def generatePrescriptionPrompt (patientInfo : PatientInfo) (illnessDescription : String)
    (selectedTreatments : List String) (files : List FilePart) : String :=
  promptHeader patientInfo.language
  ++ String.intercalate "\n            " (selectedTreatments.filterMap religiousTreatmentPrompts)
  ++ patientInfoSection patientInfo
  ++ descriptionSection files illnessDescription
  ++ "\n    \n    "
  ++ (if 0 < files.length then
        taskWithFiles patientInfo.language (String.intercalate ", " selectedTreatments)
      else
        taskNoFiles patientInfo.language (String.intercalate ", " selectedTreatments))
  ++ "\n    "

/-- The substring relation used to state what the prompt contains: the needle
occurs contiguously in the haystack. -/
def strContains (hay needle : String) : Prop :=
  ∃ s t : String, hay = s ++ (needle ++ t)

theorem str_empty_append (s : String) : "" ++ s = s := rfl

theorem strContains_tail (a : String) {b n : String} (h : strContains b n) :
    strContains (a ++ b) n := by
  obtain ⟨s, t, e⟩ := h
  exact ⟨a ++ s, t, by rw [e, String.append_assoc]⟩

theorem strContains_cons1 (a t : String) : strContains (a ++ t) a :=
  ⟨"", t, (str_empty_append (a ++ t)).symm⟩

theorem strContains_cons2 (a b t : String) : strContains (a ++ (b ++ t)) (a ++ b) :=
  ⟨"", t, by simp only [str_empty_append, String.append_assoc]⟩

theorem strContains_cons3 (a b c t : String) : strContains (a ++ (b ++ (c ++ t))) (a ++ b ++ c) :=
  ⟨"", t, by simp only [str_empty_append, String.append_assoc]⟩

/-- The prompt with attachments present, with its two hasFiles conditionals
resolved to the report branch. -/
theorem prompt_eq_withFiles (pi : PatientInfo) (d : String) (ts : List String)
    (files : List FilePart) (h : 0 < files.length) :
    generatePrescriptionPrompt pi d ts files =
      promptHeader pi.language
      ++ String.intercalate "\n            " (ts.filterMap religiousTreatmentPrompts)
      ++ patientInfoSection pi
      ++ (userCommentsHeader ++ "\n      \"" ++ d ++ "\"")
      ++ "\n    \n    "
      ++ taskWithFiles pi.language (String.intercalate ", " ts)
      ++ "\n    " := by
  unfold generatePrescriptionPrompt descriptionSection
  rw [if_pos h, if_pos h]

/-- The prompt without attachments, with its two hasFiles conditionals resolved
to the plain branch. -/
theorem prompt_eq_noFiles (pi : PatientInfo) (d : String) (ts : List String)
    (files : List FilePart) (h : files.length = 0) :
    generatePrescriptionPrompt pi d ts files =
      promptHeader pi.language
      ++ String.intercalate "\n            " (ts.filterMap religiousTreatmentPrompts)
      ++ patientInfoSection pi
      ++ (illnessDescriptionHeader ++ "\n      \"" ++ d ++ "\"")
      ++ "\n    \n    "
      ++ taskNoFiles pi.language (String.intercalate ", " ts)
      ++ "\n    " := by
  have h2 : ¬ 0 < files.length := by omega
  unfold generatePrescriptionPrompt descriptionSection
  rw [if_neg h2, if_neg h2]

/-- Every prompt carries the allopathy bullet-format rule: it is part of the
fixed FORMATTING RULES block. -/
theorem prompt_contains_allopathy (pi : PatientInfo) (d : String) (ts : List String)
    (files : List FilePart) :
    strContains (generatePrescriptionPrompt pi d ts files) allopathyFormatInstr := by
  unfold generatePrescriptionPrompt promptHeader
  simp only [String.append_assoc]
  iterate 3 apply strContains_tail
  exact strContains_cons1 _ _

/-- With attachments, the prompt carries the User Comments on Reports heading. -/
theorem prompt_contains_userComments (pi : PatientInfo) (d : String) (ts : List String)
    (files : List FilePart) (h : 0 < files.length) :
    strContains (generatePrescriptionPrompt pi d ts files) userCommentsHeader := by
  rw [prompt_eq_withFiles pi d ts files h]
  simp only [String.append_assoc]
  iterate 3 apply strContains_tail
  exact strContains_cons1 _ _

/-- With attachments, the prompt carries the Analyze Reports task item with the
translated Report Analysis Summary heading and the only-abnormal-findings rule. -/
theorem prompt_contains_analyze (pi : PatientInfo) (d : String) (ts : List String)
    (files : List FilePart) (h : 0 < files.length) :
    strContains (generatePrescriptionPrompt pi d ts files)
      (analyzeReportsInstrPrefix ++ pi.language ++ onlyAbnormalInstr) := by
  rw [prompt_eq_withFiles pi d ts files h]
  unfold taskWithFiles
  simp only [String.append_assoc]
  iterate 11 apply strContains_tail
  exact strContains_cons3 _ _ _ _

/-- With attachments, the prompt demands that prescriptionContent start with
the Report Analysis Summary section. -/
theorem prompt_contains_mustStart (pi : PatientInfo) (d : String) (ts : List String)
    (files : List FilePart) (h : 0 < files.length) :
    strContains (generatePrescriptionPrompt pi d ts files) mustStartInstr := by
  rw [prompt_eq_withFiles pi d ts files h]
  unfold taskWithFiles
  simp only [String.append_assoc]
  iterate 19 apply strContains_tail
  exact strContains_cons1 _ _

/-- Without attachments, the prompt carries the Illness Description heading. -/
theorem prompt_contains_illnessHeader (pi : PatientInfo) (d : String) (ts : List String)
    (files : List FilePart) (h : files.length = 0) :
    strContains (generatePrescriptionPrompt pi d ts files) illnessDescriptionHeader := by
  rw [prompt_eq_noFiles pi d ts files h]
  simp only [String.append_assoc]
  iterate 3 apply strContains_tail
  exact strContains_cons1 _ _

/-- Without attachments, the prompt demands one translated level 2 heading per
selected treatment type inside prescriptionContent. -/
theorem prompt_contains_headingPerType (pi : PatientInfo) (d : String) (ts : List String)
    (files : List FilePart) (h : files.length = 0) :
    strContains (generatePrescriptionPrompt pi d ts files)
      (headingPerTypeInstrPrefix ++ pi.language) := by
  rw [prompt_eq_noFiles pi d ts files h]
  unfold taskNoFiles
  simp only [String.append_assoc]
  iterate 15 apply strContains_tail
  exact strContains_cons2 _ _ _

/-- A concrete filled form used for concrete instances: the Aisha scenario of
the spec, on the symptom-text tab with no attachments. -/
def sampleState : AppState :=
  { patientInfo := { name := "Aisha", age := "29", district := "Lahore", cell := "",
                     religion := "Islam", language := "Urdu" }
    symptomDescription := "fever and cough"
    reportComments := ""
    selectedTreatments := ["Allopathy (Specialist Doctors)", "Quran & Asma-ul-Husna"]
    isLoading := false
    error := none
    prescription := Json.null
    activeTab := Tab.text
    uploadedFiles := [] }

/-- C5: for every prompt built by the prompt builder, if the attachment list is
non-empty the instruction document directs the service to begin the
prescriptionContent field with the translated Report Analysis Summary section
listing only abnormal findings; if the attachment list is empty it directs one
translated level-2 heading per selected treatment modality inside
prescriptionContent. -/
theorem C5_prompt_branch_instructions (pi : PatientInfo) (d : String) (ts : List String)
    (files : List FilePart) :
    (0 < files.length →
      strContains (generatePrescriptionPrompt pi d ts files)
        (analyzeReportsInstrPrefix ++ pi.language ++ onlyAbnormalInstr) ∧
      strContains (generatePrescriptionPrompt pi d ts files) mustStartInstr) ∧
    (files.length = 0 →
      strContains (generatePrescriptionPrompt pi d ts files)
        (headingPerTypeInstrPrefix ++ pi.language)) :=
  ⟨fun h => ⟨prompt_contains_analyze pi d ts files h, prompt_contains_mustStart pi d ts files h⟩,
   fun h => prompt_contains_headingPerType pi d ts files h⟩

/-- Concrete instance of C5 on one attachment and on none. -/
theorem C5_witness :
    strContains
      (generatePrescriptionPrompt ⟨"A", "1", "D", "", "Islam", "English"⟩ "x" ["Homeopathy"]
        [⟨"image/png", "zz"⟩])
      mustStartInstr ∧
    strContains
      (generatePrescriptionPrompt ⟨"A", "1", "D", "", "Islam", "English"⟩ "x" ["Homeopathy"] [])
      (headingPerTypeInstrPrefix ++ "English") :=
  ⟨((C5_prompt_branch_instructions ⟨"A", "1", "D", "", "Islam", "English"⟩ "x" ["Homeopathy"]
      [⟨"image/png", "zz"⟩]).1 (by decide)).2,
   (C5_prompt_branch_instructions ⟨"A", "1", "D", "", "Islam", "English"⟩ "x" ["Homeopathy"]
      []).2 rfl⟩

/-- C6: the Aisha scenario prompt contains the Urdu-script override of the
Islam fragment and the allopathy bullet-format rule. -/
theorem C6_aisha_scenario :
    strContains
      (generatePrescriptionPrompt sampleState.patientInfo "fever and cough"
        ["Allopathy (Specialist Doctors)", "Quran & Asma-ul-Husna"] [])
      urduScriptInstr ∧
    strContains
      (generatePrescriptionPrompt sampleState.patientInfo "fever and cough"
        ["Allopathy (Specialist Doctors)", "Quran & Asma-ul-Husna"] [])
      allopathyFormatInstr := by
  constructor
  · rw [prompt_eq_noFiles sampleState.patientInfo "fever and cough"
      ["Allopathy (Specialist Doctors)", "Quran & Asma-ul-Husna"] [] rfl]
    rw [show String.intercalate "\n            "
        ((["Allopathy (Specialist Doctors)", "Quran & Asma-ul-Husna"] : List String).filterMap
          religiousTreatmentPrompts) = islamFragmentBody ++ urduScriptInstr from rfl]
    simp only [String.append_assoc]
    iterate 2 apply strContains_tail
    exact strContains_cons1 _ _
  · exact prompt_contains_allopathy sampleState.patientInfo "fever and cough"
      ["Allopathy (Specialist Doctors)", "Quran & Asma-ul-Husna"] []

/-- C1 (amended): a well-formed reply object whose three required properties
are non-empty strings is stored verbatim as the Result, with no error; reply
text that is not well-formed JSON fails with the generic failure message,
leaving the error state set and no Result; but a well-formed reply omitting
required properties is NOT rejected by the client — the raw parsed value is
stored as is with no error, and it shows as a Result exactly when it is
truthy (for instance an object missing fields), while a falsy parsed value
(null, false, 0, the empty string) merely leaves no Result visible.  The
required-fields contract is delegated to the response schema sent to the
service. -/
theorem C1_reply_parsing (s : AppState) (hv : ¬ validationCondition s)
    (a b c : String) (_ha : a ≠ "") (_hb : b ≠ "") (_hc : c ≠ "") :
    ((handleSubmit s (PipelineOutcome.callSuccess (some (Json.obj
        [("illnessTitle", Json.str a), ("prescriptionContent", Json.str b),
         ("advice", Json.str c)])))).1.prescription
      = Json.obj [("illnessTitle", Json.str a), ("prescriptionContent", Json.str b),
                  ("advice", Json.str c)] ∧
     (handleSubmit s (PipelineOutcome.callSuccess (some (Json.obj
        [("illnessTitle", Json.str a), ("prescriptionContent", Json.str b),
         ("advice", Json.str c)])))).1.prescription.get "illnessTitle"
       = some (Json.str a) ∧
     (handleSubmit s (PipelineOutcome.callSuccess (some (Json.obj
        [("illnessTitle", Json.str a), ("prescriptionContent", Json.str b),
         ("advice", Json.str c)])))).1.prescription.get "prescriptionContent"
       = some (Json.str b) ∧
     (handleSubmit s (PipelineOutcome.callSuccess (some (Json.obj
        [("illnessTitle", Json.str a), ("prescriptionContent", Json.str b),
         ("advice", Json.str c)])))).1.prescription.get "advice"
       = some (Json.str c) ∧
     (handleSubmit s (PipelineOutcome.callSuccess (some (Json.obj
        [("illnessTitle", Json.str a), ("prescriptionContent", Json.str b),
         ("advice", Json.str c)])))).1.prescription.truthy = true ∧
     (handleSubmit s (PipelineOutcome.callSuccess (some (Json.obj
        [("illnessTitle", Json.str a), ("prescriptionContent", Json.str b),
         ("advice", Json.str c)])))).1.error = none) ∧
    ((handleSubmit s (PipelineOutcome.callSuccess none)).1.error = some genericFailureMsg ∧
     (handleSubmit s (PipelineOutcome.callSuccess none)).1.prescription = Json.null ∧
     (handleSubmit s (PipelineOutcome.callSuccess none)).1.prescription.truthy = false) ∧
    (∀ j : Json,
      (handleSubmit s (PipelineOutcome.callSuccess (some j))).1.error = none ∧
      (handleSubmit s (PipelineOutcome.callSuccess (some j))).1.prescription = j) := by
  refine ⟨⟨?_, ?_, ?_, ?_, ?_, ?_⟩, ⟨?_, ?_, ?_⟩, fun j => ⟨?_, ?_⟩⟩ <;>
    simp [handleSubmit, if_neg hv, parseServiceReply, Json.get, Json.truthy]

/-- Concrete instance of C1 on the Aisha form state. -/
theorem C1_witness :
    (handleSubmit sampleState (PipelineOutcome.callSuccess (some (Json.obj
        [("illnessTitle", Json.str "t1"), ("prescriptionContent", Json.str "t2"),
         ("advice", Json.str "t3")])))).1.prescription.get "illnessTitle"
      = some (Json.str "t1") :=
  ((C1_reply_parsing sampleState (by decide) "t1" "t2" "t3" (by decide) (by decide)
      (by decide)).1).2.1

/-- C1 counterexample: a well-formed reply missing prescriptionContent and
advice is not rejected — parsing succeeds, no error is set, and the partial
object is stored as a truthy Result, contrary to the claim that parsing fails,
the controller ends in the Error state, and no Result is set. -/
theorem C1_counterexample :
    parseServiceReply (some (Json.obj [("illnessTitle", Json.str "Flu")])) =
      Except.ok (Json.obj [("illnessTitle", Json.str "Flu")]) ∧
    (handleSubmit sampleState (PipelineOutcome.callSuccess (some (Json.obj
        [("illnessTitle", Json.str "Flu")])))).1.error = none ∧
    (handleSubmit sampleState (PipelineOutcome.callSuccess (some (Json.obj
        [("illnessTitle", Json.str "Flu")])))).1.prescription
      = Json.obj [("illnessTitle", Json.str "Flu")] ∧
    (Json.obj [("illnessTitle", Json.str "Flu")]).truthy = true :=
  ⟨rfl, rfl, rfl, rfl⟩

/-- C2: whenever a required PatientInfo field is empty, the selected treatment
set is empty, or the active-mode input is missing, the submit action only sets
the inline validation error and issues no encoding and no external call. -/
theorem C2_validation_blocks (s : AppState) (o : PipelineOutcome)
    (h : s.patientInfo.name = "" ∨ s.patientInfo.age = "" ∨ s.patientInfo.district = "" ∨
         s.patientInfo.religion = "" ∨ s.patientInfo.language = "" ∨
         (s.activeTab = Tab.text ∧ s.symptomDescription = "") ∨
         (s.activeTab = Tab.upload ∧ s.uploadedFiles = []) ∨
         s.selectedTreatments = []) :
    handleSubmit s o = ({ s with error := some validationErrorMsg }, none) := by
  have hj : jsTrim "" = "" := rfl
  have hv : validationCondition s := by
    unfold validationCondition isInputMissing
    rcases h with h | h | h | h | h | ⟨h1, h2⟩ | ⟨h1, h2⟩ | h <;> simp [*]
  simp only [handleSubmit, if_pos hv]

/-- Concrete instance of C2 on a form with every field cleared. -/
theorem C2_witness :
    handleSubmit { sampleState with patientInfo := initialPatientInfo }
        PipelineOutcome.callFailure =
      ({ { sampleState with patientInfo := initialPatientInfo } with
          error := some validationErrorMsg }, none) :=
  C2_validation_blocks { sampleState with patientInfo := initialPatientInfo }
    PipelineOutcome.callFailure (Or.inl rfl)

/-- C7 counterexample: an attachment-encoding failure does not produce an
Error state with the failure description — fileToPart rejects with the
FileReader onerror ProgressEvent, whose message property is undefined, so the
catch stores undefined and the error state ends with no message at all,
contrary to the claim that any failure sets the failure description as the
error message. -/
theorem C7_counterexample :
    (handleSubmit sampleState PipelineOutcome.encodingFailure).1.error = none :=
  rfl

/-- C7 (amended): once validation has passed, a failure of the external call
or of reply parsing puts the generic failure description into the error state,
while an attachment-encoding failure stores the undefined message of the
FileReader event, leaving the error unset and no visible Error state; in every
failure case no result is stored, the loading flag stops, and every entered
form field is left untouched so the user can retry. -/
theorem C7_failure_outcome (s : AppState) (o : PipelineOutcome)
    (hv : ¬ validationCondition s)
    (hf : o = PipelineOutcome.encodingFailure ∨ o = PipelineOutcome.callFailure ∨
          o = PipelineOutcome.callSuccess none) :
    (o = PipelineOutcome.encodingFailure → (handleSubmit s o).1.error = none) ∧
    ((o = PipelineOutcome.callFailure ∨ o = PipelineOutcome.callSuccess none) →
        (handleSubmit s o).1.error = some genericFailureMsg) ∧
    (handleSubmit s o).1.prescription = Json.null ∧
    (handleSubmit s o).1.prescription.truthy = false ∧
    (handleSubmit s o).1.isLoading = false ∧
    (handleSubmit s o).1.patientInfo = s.patientInfo ∧
    (handleSubmit s o).1.symptomDescription = s.symptomDescription ∧
    (handleSubmit s o).1.reportComments = s.reportComments ∧
    (handleSubmit s o).1.selectedTreatments = s.selectedTreatments ∧
    (handleSubmit s o).1.uploadedFiles = s.uploadedFiles ∧
    (handleSubmit s o).1.activeTab = s.activeTab := by
  rcases hf with hf | hf | hf <;> subst hf <;>
    simp [handleSubmit, if_neg hv, parseServiceReply, Json.truthy]

/-- Concrete instance of C7 on a failed call and a failed encoding. -/
theorem C7_witness :
    (handleSubmit sampleState PipelineOutcome.callFailure).1.error = some genericFailureMsg ∧
    (handleSubmit sampleState PipelineOutcome.encodingFailure).1.patientInfo =
      sampleState.patientInfo :=
  ⟨(C7_failure_outcome sampleState PipelineOutcome.callFailure (by decide)
      (Or.inr (Or.inl rfl))).2.1 (Or.inl rfl),
   (C7_failure_outcome sampleState PipelineOutcome.encodingFailure (by decide)
      (Or.inl rfl)).2.2.2.2.2.1⟩

/-- C3: files of a disallowed media type or at least 10 MiB are excluded from
the accepted set, one aggregate warning appears as soon as one file of the
batch was excluded, and every allowed file strictly below the bound is added. -/
theorem C3_attachment_filtering (s : AppState) (batch : List UploadedFile) :
    (∀ f ∈ batch, f.type ∈ allowedMimeTypes → f.size < 10 * 1024 * 1024 →
       f ∈ (handleFiles s (some batch)).uploadedFiles) ∧
    (∀ f ∈ batch, (f.type ∉ allowedMimeTypes ∨ 10 * 1024 * 1024 ≤ f.size) →
       (f ∈ (handleFiles s (some batch)).uploadedFiles ↔ f ∈ s.uploadedFiles)) ∧
    ((∃ f ∈ batch, f.type ∉ allowedMimeTypes ∨ 10 * 1024 * 1024 ≤ f.size) →
       (handleFiles s (some batch)).error = some invalidFilesMsg) := by
  refine ⟨?_, ?_, ?_⟩
  · intro f hm h1 h2
    have hv : isValidFile f = true := by simp [isValidFile, h1, h2]
    show f ∈ s.uploadedFiles ++ batch.filter isValidFile
    simp [List.mem_append, List.mem_filter, hm, hv]
  · intro f hm h
    have hv : isValidFile f = false := by rcases h with h | h <;> simp [isValidFile, h]
    show f ∈ s.uploadedFiles ++ batch.filter isValidFile ↔ f ∈ s.uploadedFiles
    simp [List.mem_append, List.mem_filter, hv]
  · intro hex
    obtain ⟨f, hm, h⟩ := hex
    have hv : isValidFile f = false := by rcases h with h | h <;> simp [isValidFile, h]
    have hlt : (batch.filter isValidFile).length < batch.length :=
      List.length_filter_lt_length_iff_exists.2 ⟨f, hm, by simp [hv]⟩
    have hc : (batch.filter isValidFile).length ≠ batch.length := by omega
    show ((if (batch.filter isValidFile).length ≠ batch.length then
        { s with error := some invalidFilesMsg } else s) : AppState).error = some invalidFilesMsg
    rw [if_pos hc]

/-- Concrete instance of C3: a text file is dropped with the warning while a
small png of the same batch is accepted. -/
theorem C3_witness :
    (⟨"b.png", "image/png", 5, "yy"⟩ : UploadedFile) ∈
      (handleFiles sampleState (some [⟨"a.txt", "text/plain", 5, "zz"⟩,
        ⟨"b.png", "image/png", 5, "yy"⟩])).uploadedFiles ∧
    (handleFiles sampleState (some [⟨"a.txt", "text/plain", 5, "zz"⟩,
        ⟨"b.png", "image/png", 5, "yy"⟩])).error = some invalidFilesMsg :=
  ⟨(C3_attachment_filtering sampleState _).1 _ (by decide) (by decide) (by decide),
   (C3_attachment_filtering sampleState _).2.2
     ⟨⟨"a.txt", "text/plain", 5, "zz"⟩, by decide, Or.inl (by decide)⟩⟩

/-- C4: changing the religion away from a value whose implied treatment label
exists removes that label from the selection and leaves every other selected
label untouched; the religion field takes the new value. -/
theorem C4_religion_change (s : AppState) (v L : String)
    (hL : ReligiousTreatments s.patientInfo.religion = some L)
    (_hne : v ≠ s.patientInfo.religion) :
    L ∉ (handleInputChange s "religion" v).selectedTreatments ∧
    (∀ x, x ≠ L → (x ∈ (handleInputChange s "religion" v).selectedTreatments ↔
        x ∈ s.selectedTreatments)) ∧
    (handleInputChange s "religion" v).patientInfo.religion = v := by
  refine ⟨?_, fun x hx => ?_, ?_⟩
  · simp [handleInputChange, hL, updateField, setDelete, List.mem_filter, bne_iff_ne]
  · simp [handleInputChange, hL, updateField, setDelete, List.mem_filter, bne_iff_ne, hx]
  · simp [handleInputChange, hL, updateField]

/-- Concrete instance of C4: switching from Islam to Other deselects the
Quran label. -/
theorem C4_witness :
    "Quran & Asma-ul-Husna" ∉
      (handleInputChange sampleState "religion" "Other").selectedTreatments :=
  (C4_religion_change sampleState "Other" "Quran & Asma-ul-Husna" rfl (by decide)).1

/-- C8 counterexample: after a reset the language field holds English, its
(non-empty) initial value, so not every field is at an empty default. -/
theorem C8_counterexample :
    (resetForm sampleState).patientInfo.language = "English" ∧ ("English" : String) ≠ "" :=
  ⟨rfl, by decide⟩

/-- C8 (amended): the reset action clears PatientInfo, the treatment selection,
the accepted attachments, both text inputs, any error, and the Result,
returning to the Editing state with every field at its default value — the
text fields and collections empty, the language at its default English, and
the active tab back on symptom text. -/
theorem C8_reset_clears (s : AppState) :
    (resetForm s).patientInfo = initialPatientInfo ∧
    (resetForm s).patientInfo.name = "" ∧
    (resetForm s).patientInfo.religion = "" ∧
    (resetForm s).symptomDescription = "" ∧
    (resetForm s).reportComments = "" ∧
    (resetForm s).selectedTreatments = [] ∧
    (resetForm s).uploadedFiles = [] ∧
    (resetForm s).error = none ∧
    (resetForm s).prescription = Json.null ∧
    (resetForm s).activeTab = Tab.text ∧
    (resetForm s).patientInfo.language = "English" :=
  ⟨rfl, rfl, rfl, rfl, rfl, rfl, rfl, rfl, rfl, rfl, rfl⟩

/-- Concrete instance of C8 after a filled session. -/
theorem C8_witness : (resetForm sampleState).selectedTreatments = [] :=
  (C8_reset_clears sampleState).2.2.2.2.2.1

/-- C9 counterexample: a submission that passes validation with an accepted
upload present issues no request at all when the attachment encoding fails —
Promise.all rejects before generatePrescription is called — contrary to the
claim that every validated submission sends the accepted files with the
request. -/
theorem C9_counterexample :
    (handleSubmit { sampleState with
        uploadedFiles := [⟨"r.png", "image/png", 5, "x"⟩] }
      PipelineOutcome.encodingFailure).2 = none :=
  rfl

/-- C9 (amended): once validation passes and the attachment encoding succeeds
(so that the external call is actually issued), the request carries the
encoded parts of every accepted upload regardless of the active tab, the text
of the active tab as body, and the prompt built for it shows the
report-analysis material when the encoded list is non-empty and the
per-modality material when it is empty. -/
theorem C9_request_contents (s : AppState) (o : PipelineOutcome)
    (hv : ¬ validationCondition s) (hc : o ≠ PipelineOutcome.encodingFailure) :
    (handleSubmit s o).2 = some (buildRequest s) ∧
    (buildRequest s).files = s.uploadedFiles.map fileToPart ∧
    (buildRequest s).illnessDescription =
      (if s.activeTab = Tab.text then s.symptomDescription else s.reportComments) ∧
    (buildRequest s).patientInfo = s.patientInfo ∧
    (buildRequest s).selectedTreatments = s.selectedTreatments ∧
    (s.uploadedFiles ≠ [] →
       0 < (buildRequest s).files.length ∧
       strContains (generatePrescriptionPrompt (buildRequest s).patientInfo
         (buildRequest s).illnessDescription (buildRequest s).selectedTreatments
         (buildRequest s).files) userCommentsHeader ∧
       strContains (generatePrescriptionPrompt (buildRequest s).patientInfo
         (buildRequest s).illnessDescription (buildRequest s).selectedTreatments
         (buildRequest s).files) mustStartInstr) ∧
    (s.uploadedFiles = [] →
       (buildRequest s).files.length = 0 ∧
       strContains (generatePrescriptionPrompt (buildRequest s).patientInfo
         (buildRequest s).illnessDescription (buildRequest s).selectedTreatments
         (buildRequest s).files) illnessDescriptionHeader ∧
       strContains (generatePrescriptionPrompt (buildRequest s).patientInfo
         (buildRequest s).illnessDescription (buildRequest s).selectedTreatments
         (buildRequest s).files) (headingPerTypeInstrPrefix ++ s.patientInfo.language)) := by
  have hlen : (buildRequest s).files.length = s.uploadedFiles.length := by
    simp [buildRequest]
  refine ⟨?_, rfl, rfl, rfl, rfl, ?_, ?_⟩
  · cases o with
    | encodingFailure => exact absurd rfl hc
    | callFailure => simp [handleSubmit, if_neg hv]
    | callSuccess reply => cases reply <;> simp [handleSubmit, if_neg hv, parseServiceReply]
  · intro hne
    have h1 : 0 < (buildRequest s).files.length := by
      rw [hlen]
      exact List.length_pos.2 hne
    exact ⟨h1, prompt_contains_userComments _ _ _ _ h1,
      prompt_contains_mustStart _ _ _ _ h1⟩
  · intro heq
    have h0 : (buildRequest s).files.length = 0 := by rw [hlen, heq]; rfl
    exact ⟨h0, prompt_contains_illnessHeader _ _ _ _ h0,
      prompt_contains_headingPerType _ _ _ _ h0⟩

/-- Concrete instance of C9 on the Aisha form state with a completed call. -/
theorem C9_witness :
    (handleSubmit sampleState PipelineOutcome.callFailure).2 = some (buildRequest sampleState) :=
  (C9_request_contents sampleState PipelineOutcome.callFailure (by decide)
    (fun h => nomatch h)).1

/-- C10: the remove-file action deletes every accepted attachment bearing the
given name (so namesakes go together) and keeps all others in their relative
order. -/
theorem C10_removeFile_by_name (s : AppState) (fileName : String) :
    List.Sublist (removeFile s fileName).uploadedFiles s.uploadedFiles ∧
    (∀ f, f ∈ (removeFile s fileName).uploadedFiles ↔
        f ∈ s.uploadedFiles ∧ f.name ≠ fileName) := by
  constructor
  · exact List.filter_sublist s.uploadedFiles
  · intro f
    show f ∈ s.uploadedFiles.filter (fun g => g.name != fileName) ↔ _
    simp [List.mem_filter, bne_iff_ne]

/-- Concrete instance of C10 with two namesake files and one other. -/
theorem C10_witness :
    (⟨"b.png", "image/png", 6, "y"⟩ : UploadedFile) ∈
      (removeFile { sampleState with uploadedFiles :=
        [⟨"a.png", "image/png", 5, "x"⟩, ⟨"b.png", "image/png", 6, "y"⟩,
         ⟨"a.png", "image/png", 7, "z"⟩] } "a.png").uploadedFiles ↔
    (⟨"b.png", "image/png", 6, "y"⟩ : UploadedFile) ∈
      [(⟨"a.png", "image/png", 5, "x"⟩ : UploadedFile), ⟨"b.png", "image/png", 6, "y"⟩,
       ⟨"a.png", "image/png", 7, "z"⟩] ∧ ("b.png" : String) ≠ "a.png" :=
  (C10_removeFile_by_name { sampleState with uploadedFiles :=
    [⟨"a.png", "image/png", 5, "x"⟩, ⟨"b.png", "image/png", 6, "y"⟩,
     ⟨"a.png", "image/png", 7, "z"⟩] } "a.png").2 ⟨"b.png", "image/png", 6, "y"⟩
